import Mathlib

/-!
Shallow embedding of the fruits MVC application (Express/Mongoose teaching
corpus): JWT auth middleware, fruit CRUD data controllers, API and web
routers, and the blog-variant Author/Post models, together with proofs of
the specification claims.

Persistence is modelled by explicit state passing (lists of documents),
library primitives (jwt, bcrypt, Mongoose addToSet / findByIdAndUpdate /
findOneAndDelete) by small executable Lean functions matching their
documented behaviour on the inputs the application uses.
-/

namespace FruitsApp

/-- A JavaScript value as it can appear in a submitted form/body field:
either a string (normal form submission) or a boolean (JSON body). -/
inductive JsVal where
  | str (s : String)
  | bool (b : Bool)
deriving Repr, DecidableEq

/- ### Token service (model of the jsonwebtoken library)

A signed token is modelled as the string `secret ++ ":" ++ payload id`.
`jwtVerify` splits at the first colon, checks the signature part against
the secret and decodes the decimal payload.  (The application signs with
the colon-free secret "secret".) -/

/-- Split a character list at the first colon: returns the part before and
the part after, or none when there is no colon. -/
def splitAtColon : List Char → Option (List Char × List Char)
  | [] => none
  | c :: rest =>
    if c = ':' then some ([], rest)
    else
      match splitAtColon rest with
      | some (a, b) => some (c :: a, b)
      | none => none

/-- Decimal value of one digit character. -/
def digitVal (c : Char) : Option Nat :=
  if '0' ≤ c ∧ c ≤ '9' then some (c.toNat - '0'.toNat) else none

/-- Decode a non-empty list of decimal digits. -/
def digitsToNat? (cs : List Char) : Option Nat :=
  match cs with
  | [] => none
  | _ =>
    cs.foldl
      (fun acc c =>
        match acc, digitVal c with
        | some a, some d => some (a * 10 + d)
        | _, _ => none)
      (some 0)

/-- Model of `jwt.sign({ _id: id }, secret)`. -/
def jwtSign (id : Nat) (secret : String) : String :=
  secret ++ ":" ++ toString id

/-- Model of `jwt.verify(token, secret)`: some payload id when the token
verifies against the secret, none on any malformed or badly signed token. -/
def jwtVerify (token secret : String) : Option Nat :=
  match splitAtColon token.data with
  | none => none
  | some (sig, payload) =>
    if String.mk sig = secret then digitsToNat? payload else none

/- ### Header handling -/

/-- Remove the first occurrence of `pat` from `cs` (model of the JS
`String.prototype.replace` with a string pattern, which replaces only the
first occurrence). -/
def removeFirstSub (pat : List Char) : List Char → List Char
  | [] => []
  | c :: rest =>
    if (c :: rest).take pat.length = pat then (c :: rest).drop pat.length
    else c :: removeFirstSub pat rest

/-- Model of the JS `header.replace` of the first "Bearer " occurrence by the empty string, applied to the Authorization header. -/
def bearerToken (h : String) : String :=
  String.mk (removeFirstSub "Bearer ".data h.data)

/- ### Users (the fruits application) -/

/-- A document of the Users collection.  `fruits` is the owned-set of fruit
ids (an array of ObjectId references to Fruit in the schema). -/
structure User where
  _id : Nat
  name : String
  email : String
  password : String
  fruits : List Nat
deriving Repr, DecidableEq

/-- Model of `User.findOne({ _id: i })`. -/
def findOneUser (db : List User) (i : Nat) : Option User :=
  db.find? (fun u => u._id == i)

/-- Model of the Mongoose array method `addToSet`: appends the id only when
it is not already a member. -/
def addToSet (l : List Nat) (x : Nat) : List Nat :=
  if x ∈ l then l else l ++ [x]

/-- Effect of `req.user.fruits.addToSet(...)` followed by `req.user.save()`, seen as
a transformation of the user document. -/
def ownedAdd (u : User) (rid : Nat) : User :=
  { u with fruits := addToSet u.fruits rid }

/- ### Auth middleware -/

/-- The parts of an incoming request the auth middlewares read:
`req.query.token` and the Authorization header.  `none` models an
absent parameter/header. -/
structure AuthRequest where
  queryToken : Option String
  authHeader : Option String
deriving Repr, DecidableEq

/-- JS truthiness of `req.query.token` / `req.header(...)`: `undefined`
and the empty string are falsy, every other string is truthy. -/
def truthy : Option String → Bool
  | none => false
  | some s => !(s == "")

/-- Token extraction of `exports.auth` (controllers/auth/dataController.js),
lines 3-8: the `token` query parameter when truthy, else the Authorization
header stripped of its first "Bearer " occurrence when truthy, else none
(the thrown "No token provided" branch). -/
def getToken (r : AuthRequest) : Option String :=
  if truthy r.queryToken then r.queryToken
  else if truthy r.authHeader then some (bearerToken (r.authHeader.getD ""))
  else none

/-- Outcome of an auth middleware: either `next()` was called with
`req.user` set (and the raw token exposed), or the request was answered
directly with `res.status(status).send(body)`. -/
inductive AuthOutcome where
  | ok (user : User) (token : String)
  | fail (status : Nat) (body : String)
deriving Repr, DecidableEq

/-- The function `exports.auth` of controllers/auth/dataController.js (dual-mode JWT
middleware): extract a token, `jwt.verify` it against the secret, resolve
the decoded `_id` in the Users collection; every failure is caught by the
surrounding try/catch and answered with status 401 and body "Not authorized". -/
def auth (db : List User) (secret : String) (r : AuthRequest) : AuthOutcome :=
  match getToken r with
  | none => .fail 401 "Not authorized"
  | some token =>
    match jwtVerify token secret with
    | none => .fail 401 "Not authorized"
    | some i =>
      match findOneUser db i with
      | none => .fail 401 "Not authorized"
      | some u => .ok u token

/-- The function `exports.auth` of controllers/auth/apiController.js (API auth, header
only): reading the Authorization header and stripping "Bearer " throws when the
header is absent; then verify and resolve as in the dual-mode middleware;
every failure is answered with status 401 and body "Not authorized". -/
def apiAuth (db : List User) (secret : String) (r : AuthRequest) : AuthOutcome :=
  match r.authHeader with
  | none => .fail 401 "Not authorized"
  | some h =>
    match jwtVerify (bearerToken h) secret with
    | none => .fail 401 "Not authorized"
    | some i =>
      match findOneUser db i with
      | none => .fail 401 "Not authorized"
      | some u => .ok u (bearerToken h)

/- ### Fruit documents and the fruits data controller -/

/-- A document of the Fruits collection (`models/fruit.js`): name, color
and the checkbox boolean readyToEat. -/
structure Fruit where
  _id : Nat
  name : String
  color : String
  readyToEat : Bool
deriving Repr, DecidableEq

/-- The `req.body` of a fruit form/JSON submission.  `none` models an absent
field (an unchecked checkbox is not submitted at all). -/
structure FruitBody where
  name : Option String
  color : Option String
  readyToEat : Option JsVal
deriving Repr, DecidableEq

/-- The checkbox coercion at the top of `dataController.create` and
`dataController.update`:

    if readyToEat is the string "on", it becomes true;
    else if readyToEat is not the boolean true, it becomes false;
    else it is already the boolean true and is left unchanged.

The result is the boolean the body field holds afterwards. -/
def coerceCheckbox (v : Option JsVal) : Bool :=
  if v = some (.str "on") then true
  else if v ≠ some (.bool true) then false
  else true

/-- The body after the checkbox coercion ran: the checkbox field is now a
definite boolean, always present. -/
structure FruitUpdate where
  name : Option String
  color : Option String
  readyToEat : Bool
deriving Repr, DecidableEq

/-- Effect of lines 2-6 of `dataController.create` / `dataController.update`
on `req.body`. -/
def coerceFruitBody (b : FruitBody) : FruitUpdate :=
  ⟨b.name, b.color, coerceCheckbox b.readyToEat⟩

/-- Modelled from the spec: `models/fruit.js` is not part of the corpus
(only its callers and the form views are), so Mongoose validation of
`Fruit.create` is taken from the spec, which gives resources "required
scalar fields"; the New form marks name and color required.  Creation
succeeds exactly when both are present. -/
def fruitCreateDoc (nid : Nat) (b : FruitUpdate) : Except String Fruit :=
  match b.name, b.color with
  | some n, some c => .ok ⟨nid, n, c, b.readyToEat⟩
  | _, _ => .error "Fruit validation failed"

/-- Model of `Fruit.findByIdAndUpdate(id, body, { new: true })`: fields
present in the body overwrite, absent fields keep their prior value. -/
def applyFruitUpdate (f : Fruit) (u : FruitUpdate) : Fruit :=
  { _id := f._id
    name := u.name.getD f.name
    color := u.color.getD f.color
    readyToEat := u.readyToEat }

/-- Model of `Fruit.findByIdAndUpdate(id, body, ...)` with the new flag, over the Fruits
collection: returns the new collection and the updated document (none when
no document has the id, in which case the collection is unchanged). -/
def findByIdAndUpdateFruit (fruits : List Fruit) (i : Nat) (u : FruitUpdate) :
    List Fruit × Option Fruit :=
  match fruits.find? (fun g => g._id == i) with
  | none => (fruits, none)
  | some f =>
    let f' := applyFruitUpdate f u
    (fruits.map (fun g => if g._id == i then f' else g), some f')

/-- The function `dataController.update`: checkbox coercion on `req.body`, then
`findByIdAndUpdate` with the coerced body. -/
def dataUpdateFruit (fruits : List Fruit) (i : Nat) (b : FruitBody) :
    List Fruit × Option Fruit :=
  findByIdAndUpdateFruit fruits i (coerceFruitBody b)

/- ### Blog variant (BLOG_APP_STARTER guide): Author and Post -/

/-- A document of the Authors collection (`authorSchema`). -/
structure Author where
  _id : Nat
  name : String
  email : String
  password : String
  bio : String
  posts : List Nat
deriving Repr, DecidableEq

/-- A value inside a serialized document object. -/
inductive DocVal where
  | s (v : String)
  | n (v : Nat)
  | arr (v : List Nat)
deriving Repr, DecidableEq

/-- Model of `this.toObject()`: the author document as a key/value object. -/
def authorToObject (a : Author) : List (String × DocVal) :=
  [("_id", .n a._id), ("name", .s a.name), ("email", .s a.email),
   ("password", .s a.password), ("bio", .s a.bio), ("posts", .arr a.posts)]

/-- The method `authorSchema.methods.toJSON`: `delete author.password` on the object. -/
def authorToJSON (a : Author) : List (String × DocVal) :=
  (authorToObject a).filter (fun kv => kv.1 ≠ "password")

/-- Model of `bcrypt.hash(password, 8)`: a salted hash in the bcrypt output
format, `"$2b$08$" ++ salt ++ "$" ++ digest`; the digest is modelled as the
input itself since only inequality with the plaintext and dependence on the
salt matter here. -/
def bcryptHash (salt : Nat) (pwd : String) : String :=
  "$2b$08$" ++ toString salt ++ "$" ++ pwd

/-- The pre-save hook of authorSchema: when the password path is modified, replace
it by its salted hash before the document is written. -/
def authorPreSave (a : Author) (passwordModified : Bool) (salt : Nat) : Author :=
  if passwordModified then { a with password := bcryptHash salt a.password } else a

/-- A document of the Posts collection (`postSchema`): title and content
required, author required (ref Author), published defaulting to false. -/
structure Post where
  _id : Nat
  title : String
  content : String
  author : Nat
  published : Bool
deriving Repr, DecidableEq

/-- The `req.body` of a post submission; author is the client-supplied owner
id, when the client sends one. -/
structure PostBody where
  title : Option String
  content : Option String
  author : Option Nat
  published : Option JsVal
deriving Repr, DecidableEq

/-- Model of `Post.create(req.body)` after the published coercion ran: title and
content are required by the schema, published holds the coerced boolean,
author must be present (it always is: create assigns it). -/
def postCreateDoc (nid : Nat) (b : PostBody) (published : Bool) :
    Except String Post :=
  match b.title, b.content, b.author with
  | some t, some c, some a => .ok ⟨nid, t, c, a, published⟩
  | _, _, _ => .error "Post validation failed"

/-- The function `dataController.create` of the blog guide: coerce the published
checkbox, overwrite `req.body.author` with `req.author._id`, create the
post, `addToSet` its id into the callers posts and save the caller. -/
def blogDataCreate (nid : Nat) (caller : Author) (b : PostBody) :
    Except String (Post × Author) :=
  let b1 : PostBody := { b with author := some caller._id }
  match postCreateDoc nid b1 (coerceCheckbox b.published) with
  | .error e => .error e
  | .ok p => .ok (p, { caller with posts := addToSet caller.posts p._id })

/-- Model of `Post.findByIdAndUpdate(id, body, { new: true })` on one
document: every field present in the body overwrites, including author;
published is always present after the coercion. -/
def applyPostUpdate (p : Post) (b : PostBody) (published : Bool) : Post :=
  { _id := p._id
    title := b.title.getD p.title
    content := b.content.getD p.content
    author := b.author.getD p.author
    published := published }

/-- The function `dataController.update` of the blog guide: coerce the published
checkbox, then `findByIdAndUpdate(req.params.id, req.body, { new: true })`. -/
def blogDataUpdate (posts : List Post) (i : Nat) (b : PostBody) :
    List Post × Option Post :=
  match posts.find? (fun q => q._id == i) with
  | none => (posts, none)
  | some p =>
    let p' := applyPostUpdate p b (coerceCheckbox b.published)
    (posts.map (fun q => if q._id == i then p' else q), some p')

/- ### Application state, requests, responses -/

/-- The persistent state the modelled handlers touch: the Users and Fruits
collections plus the id the store gives the next created document. -/
structure AppState where
  users : List User
  fruits : List Fruit
  nextId : Nat
deriving Repr, DecidableEq

/-- A full incoming request: auth inputs, the `:id` path parameter and the
parsed body. -/
structure WebReq where
  authReq : AuthRequest
  paramsId : Nat
  body : FruitBody
deriving Repr, DecidableEq

/-- A finished response. -/
inductive Response where
  | send (status : Nat) (body : String)
  | jsonMsg (status : Nat) (message : String)
  | jsonFruit (status : Nat) (f : Option Fruit)
  | jsonFruits (status : Nat) (fs : List Fruit)
  | redirect (loc : String)
  | render (view : String)
deriving Repr, DecidableEq

/-- The object `res.locals.data` plus `req.user`, as filled in along a middleware
chain; `app.js` initialises `res.locals.data = {}` for every request. -/
structure Ctx where
  user : Option User
  token : Option String
  fruit : Option Fruit
  fruits : List Fruit
deriving Repr, DecidableEq

/-- The empty per-request context. -/
def initCtx : Ctx := ⟨none, none, none, []⟩

/- ### Routers -/

/-- The middleware functions the fruits web router and the API router wire
(controllers and auth middlewares by name). -/
inductive Handler where
  | authMw        -- authDataController.auth (dual mode)
  | apiAuthMw     -- userApiController.auth (header only)
  | dataIndex
  | dataCreate
  | dataShow
  | dataUpdate
  | dataDestroy
  | viewIndex
  | viewNew
  | viewEdit
  | viewShow
  | redirectHome
  | redirectShow
  | apiIndex
  | apiShow
  | apiCreate
  | apiDestroy
  | deleteUserMw  -- userApiController.deleteUser
deriving Repr, DecidableEq

/-- One wired route: verb, path pattern, middleware chain. -/
structure Route where
  verb : String
  path : String
  chain : List Handler
deriving Repr, DecidableEq

/-- controllers/fruits/routeController.js, in wiring order. -/
def fruitsRouter : List Route :=
  [⟨"GET", "/", [.authMw, .dataIndex, .viewIndex]⟩,
   ⟨"GET", "/new", [.authMw, .viewNew]⟩,
   ⟨"DELETE", "/:id", [.dataDestroy, .redirectHome]⟩,
   ⟨"PUT", "/:id", [.dataUpdate, .redirectShow]⟩,
   ⟨"POST", "/", [.dataCreate, .redirectHome]⟩,
   ⟨"GET", "/:id/edit", [.dataShow, .viewEdit]⟩,
   ⟨"GET", "/:id", [.dataShow, .viewShow]⟩]

/-- The fruit and user entries of routes/apiRoutes.js that the claims
touch, in wiring order. -/
def apiRouter : List Route :=
  [⟨"DELETE", "/users/:id", [.apiAuthMw, .deleteUserMw]⟩,
   ⟨"GET", "/fruits", [.apiAuthMw, .dataIndex, .apiIndex]⟩,
   ⟨"GET", "/fruits/:id", [.apiAuthMw, .dataShow, .apiShow]⟩,
   ⟨"POST", "/fruits", [.apiAuthMw, .dataCreate, .apiCreate]⟩,
   ⟨"PUT", "/fruits/:id", [.apiAuthMw, .dataUpdate, .apiShow]⟩,
   ⟨"DELETE", "/fruits/:id", [.apiAuthMw, .dataDestroy, .apiDestroy]⟩]

/-- Look a route up by verb and path pattern (first match, as Express). -/
def findRoute (routes : List Route) (verb path : String) : Option Route :=
  routes.find? (fun r => r.verb == verb && r.path == path)

/- ### Middleware execution -/

/-- Result of one middleware: either `next()` was reached (continue with
possibly changed state and context) or a response was sent. -/
inductive Step where
  | cont (st : AppState) (ctx : Ctx)
  | halt (st : AppState) (r : Response)

/-- One middleware, as written in the source files.  Failures a try/catch
turns into `res.status(400).send({ message: error.message })` halt with
`jsonMsg 400`; the messages of errors thrown by the JS runtime itself
(undefined property access, the lowercase `new error(...)` slip in
`dataController.show`) are reproduced as the runtime would word them. -/
def runHandler (secret : String) (req : WebReq) (h : Handler)
    (st : AppState) (ctx : Ctx) : Step :=
  match h with
  | .authMw =>
    match auth st.users secret req.authReq with
    | .fail s b => .halt st (.send s b)
    | .ok u tok => .cont st { ctx with user := some u, token := some tok }
  | .apiAuthMw =>
    match apiAuth st.users secret req.authReq with
    | .fail s b => .halt st (.send s b)
    | .ok u _ => .cont st { ctx with user := some u }
  | .dataIndex =>
    match ctx.user with
    | none => .halt st (.jsonMsg 400 "Cannot read properties of undefined")
    | some u =>
      .cont st { ctx with fruits := st.fruits.filter (fun f => f._id ∈ u.fruits) }
  | .dataCreate =>
    match fruitCreateDoc st.nextId (coerceFruitBody req.body) with
    | .error e => .halt st (.jsonMsg 400 e)
    | .ok f =>
      let stf : AppState :=
        { st with fruits := st.fruits ++ [f], nextId := st.nextId + 1 }
      match ctx.user with
      | none => .halt stf (.jsonMsg 400 "Cannot read properties of undefined")
      | some u =>
        let u' := ownedAdd u f._id
        .cont { stf with
                  users := stf.users.map (fun v => if v._id == u._id then u' else v) }
              { ctx with user := some u', fruit := some f }
  | .dataShow =>
    match st.fruits.find? (fun f => f._id == req.paramsId) with
    | none => .halt st (.jsonMsg 400 "error is not defined")
    | some f => .cont st { ctx with fruit := some f }
  | .dataUpdate =>
    let r := dataUpdateFruit st.fruits req.paramsId req.body
    .cont { st with fruits := r.1 } { ctx with fruit := r.2 }
  | .dataDestroy =>
    .cont { st with fruits := st.fruits.eraseP (fun f => f._id == req.paramsId) } ctx
  | .viewIndex => .halt st (.render "fruits/Index")
  | .viewNew => .halt st (.render "fruits/New")
  | .viewEdit => .halt st (.render "fruits/Edit")
  | .viewShow => .halt st (.render "fruits/Show")
  | .redirectHome => .halt st (.redirect "/fruits")
  | .redirectShow => .halt st (.redirect ("/fruits/" ++ toString req.paramsId))
  | .apiIndex => .halt st (.jsonFruits 200 ctx.fruits)
  | .apiShow => .halt st (.jsonFruit 200 ctx.fruit)
  | .apiCreate => .halt st (.jsonFruit 201 ctx.fruit)
  | .apiDestroy => .halt st (.jsonMsg 200 "Fruit successfully deleted")
  | .deleteUserMw =>
    match ctx.user with
    | none => .halt st (.jsonMsg 400 "Cannot read properties of undefined")
    | some u =>
      .halt { st with users := st.users.eraseP (fun v => v._id == u._id) }
            (.jsonMsg 200 "User deleted successfully")

/-- Run a middleware chain until a response is sent.  A chain that runs out
without responding leaves the request hanging; Express would eventually
time out, modelled as a 404 send (no wired chain reaches this). -/
def runChain (secret : String) (req : WebReq) :
    List Handler → AppState → Ctx → AppState × Response
  | [], st, _ => (st, .send 404 "Not Found")
  | h :: rest, st, ctx =>
    match runHandler secret req h st ctx with
    | .halt st' r => (st', r)
    | .cont st' ctx' => runChain secret req rest st' ctx'

/- ### Helper lemmas -/

theorem mem_addToSet_self (l : List Nat) (x : Nat) : x ∈ addToSet l x := by
  unfold addToSet
  split
  · assumption
  · simp

theorem addToSet_idem (l : List Nat) (x : Nat) :
    addToSet (addToSet l x) x = addToSet l x := by
  have h := mem_addToSet_self l x
  rw [show addToSet (addToSet l x) x =
        if x ∈ addToSet l x then addToSet l x else addToSet l x ++ [x] from rfl,
      if_pos h]

theorem count_addToSet (l : List Nat) (x : Nat) (h : l.count x ≤ 1) :
    (addToSet l x).count x = 1 := by
  unfold addToSet
  split
  · rename_i hm
    have h1 : 0 < l.count x := List.count_pos_iff.mpr hm
    omega
  · rename_i hm
    have h0 : l.count x = 0 := by
      simpa using List.count_eq_zero_of_not_mem hm
    simp [List.count_append, h0]

/- ### Claim theorems -/

/-- C3: checkbox coercion on both create and update — a submitted "on"
stores true, the boolean true is stored as true unchanged, and every other
submitted value, absence of the field included, stores false; the value
stored by `dataController.update` and `dataController.create` for the
checkbox field is exactly the coerced one. -/
theorem c3_checkbox_coercion :
    coerceCheckbox (some (.str "on")) = true ∧
    coerceCheckbox (some (.bool true)) = true ∧
    coerceCheckbox none = false ∧
    (∀ v : Option JsVal, v ≠ some (.str "on") → v ≠ some (.bool true) →
      coerceCheckbox v = false) ∧
    (∀ (fruits : List Fruit) (i : Nat) (b : FruitBody) (f' : Fruit),
      (dataUpdateFruit fruits i b).2 = some f' →
      f'.readyToEat = coerceCheckbox b.readyToEat) ∧
    (∀ (nid : Nat) (b : FruitBody) (f : Fruit),
      fruitCreateDoc nid (coerceFruitBody b) = .ok f →
      f.readyToEat = coerceCheckbox b.readyToEat) := by
  refine ⟨rfl, rfl, rfl, ?_, ?_, ?_⟩
  · intro v h1 h2
    simp [coerceCheckbox, h1, h2]
  · intro fruits i b f' h
    unfold dataUpdateFruit findByIdAndUpdateFruit at h
    cases hf : fruits.find? (fun g => g._id == i) with
    | none => rw [hf] at h; simp at h
    | some f =>
      rw [hf] at h
      simp at h
      subst h
      rfl
  · intro nid b f h
    unfold fruitCreateDoc coerceFruitBody at h
    cases hn : b.name <;> cases hc : b.color <;> rw [hn, hc] at h <;> simp at h
    rw [← h]

/-- C3 witness: concrete coercions, and a concrete update storing the
coerced value. -/
theorem c3_checkbox_coercion_witness :
    coerceCheckbox (some (.str "off")) = false ∧
    coerceCheckbox (some (.bool false)) = false ∧
    (⟨1, "pear", "red", false⟩ : Fruit).readyToEat =
      coerceCheckbox (⟨some "pear", none, none⟩ : FruitBody).readyToEat := by
  refine ⟨?_, ?_, ?_⟩
  · exact c3_checkbox_coercion.2.2.2.1 (some (.str "off")) (by decide) (by decide)
  · exact c3_checkbox_coercion.2.2.2.1 (some (.bool false)) (by decide) (by decide)
  · exact c3_checkbox_coercion.2.2.2.2.1 [⟨1, "apple", "red", true⟩] 1
      ⟨some "pear", none, none⟩ ⟨1, "pear", "red", false⟩ rfl

/-- C5: adding a resource id to the owned-set of a user is idempotent —
adding twice equals adding once, and when the set held at most one
occurrence before (as every set built by addToSet does), exactly one
occurrence remains. -/
theorem c5_owned_set_add_idempotent :
    ∀ (u : User) (rid : Nat),
      ownedAdd (ownedAdd u rid) rid = ownedAdd u rid ∧
      (u.fruits.count rid ≤ 1 →
        ((ownedAdd (ownedAdd u rid) rid).fruits.count rid = 1)) := by
  intro u rid
  constructor
  · simp [ownedAdd, addToSet_idem]
  · intro h
    simp only [ownedAdd, addToSet_idem]
    exact count_addToSet u.fruits rid h

/-- C5 witness: re-adding an id already present leaves one occurrence. -/
theorem c5_owned_set_add_idempotent_witness :
    ownedAdd (ownedAdd ⟨1, "a", "a@x.com", "pw", [5]⟩ 5) 5 =
      ownedAdd ⟨1, "a", "a@x.com", "pw", [5]⟩ 5 ∧
    (ownedAdd (ownedAdd ⟨1, "a", "a@x.com", "pw", [5]⟩ 5) 5).fruits.count 5 = 1 := by
  refine ⟨(c5_owned_set_add_idempotent ⟨1, "a", "a@x.com", "pw", [5]⟩ 5).1, ?_⟩
  exact (c5_owned_set_add_idempotent ⟨1, "a", "a@x.com", "pw", [5]⟩ 5).2 (by decide)

/-- C7: when the password path was modified and the document is saved, the
stored credential is the salted hash, which is never the plaintext; and
the serialized (toJSON) author carries exactly the keys _id, name, email,
bio and posts — no password key. -/
theorem c7_password_hashed_and_hidden :
    ∀ (a : Author) (salt : Nat),
      (authorPreSave a true salt).password = bcryptHash salt a.password ∧
      bcryptHash salt a.password ≠ a.password ∧
      (authorToJSON a).map Prod.fst = ["_id", "name", "email", "bio", "posts"] := by
  intro a salt
  refine ⟨rfl, ?_, ?_⟩
  · intro h
    have hl := congrArg String.length h
    rw [bcryptHash] at hl
    simp [String.length_append] at hl
    exact absurd hl.1.1 (by decide)
  · rfl

/-- C7 witness: a concrete author whose saved credential differs from the
plaintext and whose JSON keys omit password. -/
theorem c7_password_hashed_and_hidden_witness :
    bcryptHash 3 (⟨1, "a", "a@x.com", "secret123", "", []⟩ : Author).password ≠
      (⟨1, "a", "a@x.com", "secret123", "", []⟩ : Author).password ∧
    (authorToJSON ⟨1, "a", "a@x.com", "secret123", "", []⟩).map Prod.fst =
      ["_id", "name", "email", "bio", "posts"] := by
  refine ⟨?_, ?_⟩
  · exact (c7_password_hashed_and_hidden ⟨1, "a", "a@x.com", "secret123", "", []⟩ 3).2.1
  · exact (c7_password_hashed_and_hidden ⟨1, "a", "a@x.com", "secret123", "", []⟩ 3).2.2

/-- C1: the Auth Middleware hands the request to the downstream handler
with a resolved user attached exactly when a token is present, it verifies
against the signing secret and the decoded id resolves to an existing
user; in every other case it answers 401 with the single body
"Not authorized". -/
theorem c1_auth_all_or_nothing :
    ∀ (db : List User) (secret : String) (r : AuthRequest),
      (∀ (u : User) (tok : String),
        auth db secret r = .ok u tok ↔
          (getToken r = some tok ∧
           ∃ i, jwtVerify tok secret = some i ∧ findOneUser db i = some u)) ∧
      ((∀ (u : User) (tok : String), auth db secret r ≠ .ok u tok) →
        auth db secret r = .fail 401 "Not authorized") := by
  intro db secret r
  constructor
  · intro u tok
    constructor
    · intro h
      unfold auth at h
      cases hgt : getToken r with
      | none => simp only [hgt] at h; exact AuthOutcome.noConfusion h
      | some t =>
        simp only [hgt] at h
        cases hv : jwtVerify t secret with
        | none => simp only [hv] at h; exact AuthOutcome.noConfusion h
        | some i =>
          simp only [hv] at h
          cases hu : findOneUser db i with
          | none => simp only [hu] at h; exact AuthOutcome.noConfusion h
          | some u' =>
            simp only [hu] at h
            injection h with h1 h2
            subst h1
            subst h2
            exact ⟨rfl, i, hv, hu⟩
    · rintro ⟨ht, i, hv, hu⟩
      unfold auth
      simp only [ht, hv, hu]
  · intro hne
    unfold auth
    cases hgt : getToken r with
    | none => simp only [hgt]
    | some t =>
      simp only [hgt]
      cases hv : jwtVerify t secret with
      | none => simp only [hv]
      | some i =>
        simp only [hv]
        cases hu : findOneUser db i with
        | none => simp only [hu]
        | some u =>
          exfalso
          apply hne u t
          unfold auth
          simp only [hgt, hv, hu]

/-- C1 witness: a signed token for an existing user authenticates, and a
request with no token at all gets the uniform 401. -/
theorem c1_auth_all_or_nothing_witness :
    auth [⟨1, "a", "a@x.com", "pw", []⟩] "secret"
        ⟨some (jwtSign 1 "secret"), none⟩ =
      .ok ⟨1, "a", "a@x.com", "pw", []⟩ (jwtSign 1 "secret") ∧
    auth [⟨1, "a", "a@x.com", "pw", []⟩] "secret" ⟨none, none⟩ =
      .fail 401 "Not authorized" := by
  constructor
  · exact ((c1_auth_all_or_nothing [⟨1, "a", "a@x.com", "pw", []⟩] "secret"
      ⟨some (jwtSign 1 "secret"), none⟩).1 ⟨1, "a", "a@x.com", "pw", []⟩
      (jwtSign 1 "secret")).mpr ⟨by decide, 1, by decide, by decide⟩
  · exact (c1_auth_all_or_nothing [⟨1, "a", "a@x.com", "pw", []⟩] "secret"
      ⟨none, none⟩).2 (fun _ _ h => AuthOutcome.noConfusion h)

/-- C6: when a truthy `token` query parameter is present the middleware
uses it and ignores the Authorization header; the header is consulted only
when the query parameter is absent; and with neither present the
middleware fails with the uniform 401 for every user directory and secret,
before any verification. -/
theorem c6_token_source_priority :
    ∀ (r : AuthRequest),
      (∀ q, r.queryToken = some q → q ≠ "" → getToken r = some q) ∧
      (∀ h, r.queryToken = none → r.authHeader = some h → h ≠ "" →
        getToken r = some (bearerToken h)) ∧
      (r.queryToken = none → r.authHeader = none →
        ∀ (db : List User) (secret : String),
          auth db secret r = .fail 401 "Not authorized") := by
  intro r
  refine ⟨?_, ?_, ?_⟩
  · intro q hq hne
    have ht : truthy r.queryToken = true := by
      rw [hq]; simpa [truthy] using hne
    rw [getToken, if_pos ht, hq]
  · intro h hq hh hne
    have ht : truthy r.queryToken = false := by rw [hq]; rfl
    have th : truthy r.authHeader = true := by
      rw [hh]; simpa [truthy] using hne
    rw [getToken, ht, if_neg (by simp), if_pos th, hh]
    rfl
  · intro hq hh db secret
    have hg : getToken r = none := by
      rw [getToken, hq, hh]; rfl
    rw [auth, hg]

/-- C6 witness: with both sources present the query token wins; with
neither the request is rejected 401 against an arbitrary directory. -/
theorem c6_token_source_priority_witness :
    getToken ⟨some "querytok", some "Bearer headertok"⟩ = some "querytok" ∧
    getToken ⟨none, some "Bearer headertok"⟩ = some "headertok" ∧
    auth [] "anysecret" ⟨none, none⟩ = .fail 401 "Not authorized" := by
  refine ⟨?_, ?_, ?_⟩
  · exact (c6_token_source_priority ⟨some "querytok", some "Bearer headertok"⟩).1
      "querytok" rfl (by decide)
  · have h := (c6_token_source_priority ⟨none, some "Bearer headertok"⟩).2.1
      "Bearer headertok" rfl rfl (by decide)
    rw [h]
    decide
  · exact (c6_token_source_priority ⟨none, none⟩).2.2 rfl rfl [] "anysecret"

theorem find?_some_id (l : List Fruit) (i : Nat) (f : Fruit)
    (h : l.find? (fun g => g._id == i) = some f) : f._id = i := by
  simpa using List.find?_some h

theorem find?_map_update (l : List Fruit) (i : Nat) (f f' : Fruit)
    (hf' : f'._id = i) (h : l.find? (fun g => g._id == i) = some f) :
    (l.map (fun g => if g._id == i then f' else g)).find?
      (fun g => g._id == i) = some f' := by
  induction l with
  | nil => simp at h
  | cons a t ih =>
    by_cases ha : (a._id == i) = true
    · have hb : (f'._id == i) = true := by simp [hf']
      simp only [List.map_cons, if_pos ha, List.find?, hb]
    · have ha' : (a._id == i) = false := by simpa using ha
      simp only [List.find?, ha'] at h
      simp only [List.map_cons, ha', Bool.false_eq_true, if_false, List.find?]
      exact ih h

theorem applyFruitUpdate_absorb (f : Fruit) (u : FruitUpdate) :
    applyFruitUpdate (applyFruitUpdate f u) u = applyFruitUpdate f u := by
  obtain ⟨n, c, rb⟩ := u
  cases n <;> cases c <;> rfl

/-- C4 counterexample: a fruit stored with readyToEat true, updated with a
body that mentions only the name, comes back with readyToEat false — the
checkbox field does not keep its prior value when absent from the input. -/
theorem c4_counterexample :
    (dataUpdateFruit [⟨1, "apple", "red", true⟩] 1 ⟨some "pear", none, none⟩).2 =
      some ⟨1, "pear", "red", false⟩ ∧
    (⟨1, "pear", "red", false⟩ : Fruit).readyToEat ≠
      (⟨1, "apple", "red", true⟩ : Fruit).readyToEat := by
  exact ⟨rfl, by decide⟩

/-- C4 amended: an update whose input mentions only field X mutates X and
the checkbox field — which is always rewritten to the coerced value, false
when absent — and leaves every other field and every other document
unchanged; applying the same partial update twice equals applying it
once. -/
theorem c4_partial_update_amended :
    ∀ (fruits : List Fruit) (i : Nat) (b : FruitBody),
      (∀ f, fruits.find? (fun g => g._id == i) = some f →
        ∃ f', (dataUpdateFruit fruits i b).2 = some f' ∧
          f'._id = f._id ∧
          (b.name = none → f'.name = f.name) ∧
          (∀ n, b.name = some n → f'.name = n) ∧
          (b.color = none → f'.color = f.color) ∧
          (∀ c, b.color = some c → f'.color = c) ∧
          f'.readyToEat = coerceCheckbox b.readyToEat) ∧
      (∀ g, g ∈ fruits → (g._id == i) = false →
        g ∈ (dataUpdateFruit fruits i b).1) ∧
      dataUpdateFruit (dataUpdateFruit fruits i b).1 i b =
        dataUpdateFruit fruits i b := by
  intro fruits i b
  refine ⟨?_, ?_, ?_⟩
  · intro f hf
    refine ⟨applyFruitUpdate f (coerceFruitBody b), ?_, rfl, ?_, ?_, ?_, ?_, rfl⟩
    · unfold dataUpdateFruit findByIdAndUpdateFruit
      simp only [hf]
    · intro hn; simp [applyFruitUpdate, coerceFruitBody, hn]
    · intro n hn; simp [applyFruitUpdate, coerceFruitBody, hn]
    · intro hc; simp [applyFruitUpdate, coerceFruitBody, hc]
    · intro c hc; simp [applyFruitUpdate, coerceFruitBody, hc]
  · intro g hg hgid
    unfold dataUpdateFruit findByIdAndUpdateFruit
    cases hf : fruits.find? (fun x => x._id == i) with
    | none => exact hg
    | some f => exact List.mem_map.mpr ⟨g, hg, by simp [hgid]⟩
  · unfold dataUpdateFruit findByIdAndUpdateFruit
    cases hf : fruits.find? (fun g => g._id == i) with
    | none => simp only [hf]
    | some f =>
      have hid : (applyFruitUpdate f (coerceFruitBody b))._id = i := by
        rw [show (applyFruitUpdate f (coerceFruitBody b))._id = f._id from rfl]
        exact find?_some_id fruits i f hf
      simp only [hf,
        find?_map_update fruits i f (applyFruitUpdate f (coerceFruitBody b)) hid hf,
        applyFruitUpdate_absorb]
      rw [List.map_map]
      refine Prod.ext ?_ rfl
      apply List.map_congr_left
      intro a _
      by_cases ha : (a._id == i) = true
      · simp only [Function.comp, if_pos ha]
        exact ite_self _
      · simp only [Function.comp, if_neg ha]

/-- C4 witness for the amended claim: concrete partial update showing the
frame conditions and idempotence. -/
theorem c4_partial_update_amended_witness :
    (∃ f', (dataUpdateFruit [⟨1, "apple", "red", false⟩] 1
        ⟨some "pear", none, none⟩).2 = some f' ∧
      f'._id = 1 ∧ f'.color = "red") ∧
    dataUpdateFruit (dataUpdateFruit [⟨1, "apple", "red", false⟩] 1
        ⟨some "pear", none, none⟩).1 1 ⟨some "pear", none, none⟩ =
      dataUpdateFruit [⟨1, "apple", "red", false⟩] 1 ⟨some "pear", none, none⟩ := by
  constructor
  · obtain ⟨f', h1, h2, _, _, h5, _, _⟩ :=
      (c4_partial_update_amended [⟨1, "apple", "red", false⟩] 1
        ⟨some "pear", none, none⟩).1 ⟨1, "apple", "red", false⟩ rfl
    exact ⟨f', h1, h2, h5 rfl⟩
  · exact (c4_partial_update_amended [⟨1, "apple", "red", false⟩] 1
      ⟨some "pear", none, none⟩).2.2

/-- C2: creation always forces the owner to the authenticated caller
(client-supplied owner values are discarded); but the update of the public
contract applies the request body wholesale, so a body naming the owner
field does reassign the owner — evaluated here at a concrete input: a post
owned by author 1 updated with body author 2 comes back owned by 2. -/
theorem c2_owner_forced_on_create_but_update_reassigns :
    (∀ (nid : Nat) (caller : Author) (b : PostBody) (p : Post) (a' : Author),
        blogDataCreate nid caller b = .ok (p, a') → p.author = caller._id) ∧
    (blogDataUpdate [⟨1, "t", "c", 1, false⟩] 1 ⟨none, none, some 2, none⟩).2 =
      some ⟨1, "t", "c", 2, false⟩ ∧
    (⟨1, "t", "c", 2, false⟩ : Post).author ≠
      (⟨1, "t", "c", 1, false⟩ : Post).author := by
  refine ⟨?_, rfl, by decide⟩
  intro nid caller b p a' h
  unfold blogDataCreate postCreateDoc at h
  cases ht : b.title <;> cases hc : b.content <;>
    simp only [ht, hc] at h <;> try exact Except.noConfusion h
  injection h with h1
  injection h1 with h2 h3
  rw [← h2]

/-- C2 witness: a concrete create whose body names a different owner still
stores the caller as owner. -/
theorem c2_owner_forced_witness :
    ∃ p a', blogDataCreate 7 ⟨1, "a", "a@x.com", "pw", "", []⟩
        ⟨some "t", some "c", some 99, none⟩ = .ok (p, a') ∧ p.author = 1 := by
  refine ⟨⟨7, "t", "c", 1, false⟩, ⟨1, "a", "a@x.com", "pw", "", [7]⟩, rfl, ?_⟩
  exact c2_owner_forced_on_create_but_update_reassigns.1 7
    ⟨1, "a", "a@x.com", "pw", "", []⟩ ⟨some "t", some "c", some 99, none⟩
    ⟨7, "t", "c", 1, false⟩ ⟨1, "a", "a@x.com", "pw", "", [7]⟩ rfl

theorem eraseP_id_ne (l : List Fruit) (i : Nat)
    (hnd : (l.map Fruit._id).Nodup) :
    ∀ g ∈ l.eraseP (fun x => x._id == i), g._id ≠ i := by
  induction l with
  | nil => simp
  | cons a t ih =>
    rw [List.map_cons, List.nodup_cons] at hnd
    intro g hg
    cases hp : (a._id == i) with
    | true =>
      rw [List.eraseP_cons, hp] at hg
      intro hgi
      apply hnd.1
      have hai : a._id = i := by simpa using hp
      rw [hai, ← hgi]
      exact List.mem_map_of_mem Fruit._id hg
    | false =>
      rw [List.eraseP_cons, hp] at hg
      simp only [cond_false] at hg
      cases hg with
      | head => simpa using hp
      | tail _ hg' => exact ih hnd.2 g hg'

theorem mem_eraseP_of_pred_false {α : Type} (p : α → Bool) (l : List α)
    (v : α) (hv : p v = false) (h : v ∈ l) : v ∈ l.eraseP p := by
  induction l with
  | nil => simp at h
  | cons a t ih =>
    cases hp : p a with
    | true =>
      rw [List.eraseP_cons, hp]
      cases h with
      | head => rw [hv] at hp; exact Bool.noConfusion hp
      | tail _ h' => exact h'
    | false =>
      rw [List.eraseP_cons, hp]
      simp only [cond_false]
      cases h with
      | head => exact List.mem_cons_self _ _
      | tail _ h' => exact List.mem_cons_of_mem _ (ih h')

/-- C9: on the web fruits router the delete, update, create, show and edit
routes carry no auth middleware; running the delete chain as wired on a
request with no token and no Authorization header still removes the fruit
and answers with a redirect to /fruits. -/
theorem c9_web_routes_unauthenticated :
    (findRoute fruitsRouter "DELETE" "/:id" =
        some ⟨"DELETE", "/:id", [.dataDestroy, .redirectHome]⟩ ∧
     findRoute fruitsRouter "PUT" "/:id" =
        some ⟨"PUT", "/:id", [.dataUpdate, .redirectShow]⟩ ∧
     findRoute fruitsRouter "POST" "/" =
        some ⟨"POST", "/", [.dataCreate, .redirectHome]⟩ ∧
     findRoute fruitsRouter "GET" "/:id/edit" =
        some ⟨"GET", "/:id/edit", [.dataShow, .viewEdit]⟩ ∧
     findRoute fruitsRouter "GET" "/:id" =
        some ⟨"GET", "/:id", [.dataShow, .viewShow]⟩) ∧
    (Handler.authMw ∉ ([.dataDestroy, .redirectHome] : List Handler) ∧
     Handler.authMw ∉ ([.dataUpdate, .redirectShow] : List Handler) ∧
     Handler.authMw ∉ ([.dataCreate, .redirectHome] : List Handler) ∧
     Handler.authMw ∉ ([.dataShow, .viewEdit] : List Handler) ∧
     Handler.authMw ∉ ([.dataShow, .viewShow] : List Handler)) ∧
    (∀ (st : AppState) (f : Fruit) (b : FruitBody) (secret : String),
      f ∈ st.fruits → (st.fruits.map Fruit._id).Nodup →
      (runChain secret ⟨⟨none, none⟩, f._id, b⟩ [.dataDestroy, .redirectHome]
          st initCtx).2 = .redirect "/fruits" ∧
      (∀ g ∈ (runChain secret ⟨⟨none, none⟩, f._id, b⟩
          [.dataDestroy, .redirectHome] st initCtx).1.fruits, g._id ≠ f._id)) := by
  refine ⟨by decide, by decide, ?_⟩
  intro st f b secret _ hnd
  refine ⟨rfl, ?_⟩
  intro g hg
  exact eraseP_id_ne st.fruits f._id hnd g hg

/-- C9 witness: a concrete unauthenticated DELETE removing the only
fruit. -/
theorem c9_web_routes_unauthenticated_witness :
    (runChain "secret" ⟨⟨none, none⟩, 1, ⟨none, none, none⟩⟩
        [.dataDestroy, .redirectHome]
        ⟨[], [⟨1, "apple", "red", true⟩], 2⟩ initCtx).2 = .redirect "/fruits" ∧
    (∀ g ∈ (runChain "secret" ⟨⟨none, none⟩, 1, ⟨none, none, none⟩⟩
        [.dataDestroy, .redirectHome]
        ⟨[], [⟨1, "apple", "red", true⟩], 2⟩ initCtx).1.fruits, g._id ≠ 1) := by
  exact c9_web_routes_unauthenticated.2.2 ⟨[], [⟨1, "apple", "red", true⟩], 2⟩
    ⟨1, "apple", "red", true⟩ ⟨none, none, none⟩ "secret" (by decide) (by decide)

/-- C10: the API delete-user route runs auth then deleteUser; deleteUser
never reads the :id path parameter — any two parameter values give the
same outcome — and on authentication success it removes the account of the
caller resolved from the token, answering 200 with the deletion message;
accounts with a different id survive. -/
theorem c10_delete_user_ignores_param :
    ∀ (st : AppState) (secret : String) (areq : AuthRequest)
      (id1 id2 : Nat) (b1 b2 : FruitBody),
      findRoute apiRouter "DELETE" "/users/:id" =
        some ⟨"DELETE", "/users/:id", [.apiAuthMw, .deleteUserMw]⟩ ∧
      runChain secret ⟨areq, id1, b1⟩ [.apiAuthMw, .deleteUserMw] st initCtx =
        runChain secret ⟨areq, id2, b2⟩ [.apiAuthMw, .deleteUserMw] st initCtx ∧
      (∀ u tok, apiAuth st.users secret areq = .ok u tok →
        runChain secret ⟨areq, id1, b1⟩ [.apiAuthMw, .deleteUserMw] st initCtx =
          ({ st with users := st.users.eraseP (fun v => v._id == u._id) },
           .jsonMsg 200 "User deleted successfully") ∧
        (∀ v, v ∈ st.users → v._id ≠ u._id →
          v ∈ (runChain secret ⟨areq, id1, b1⟩ [.apiAuthMw, .deleteUserMw]
                st initCtx).1.users)) := by
  intro st secret areq id1 id2 b1 b2
  refine ⟨by decide, ?_, ?_⟩
  · cases h : apiAuth st.users secret areq with
    | fail s m => simp [runChain, runHandler, h]
    | ok u tok => simp [runChain, runHandler, h]
  · intro u tok h
    constructor
    · simp [runChain, runHandler, h]
    · intro v hv hne
      have hr : (runChain secret ⟨areq, id1, b1⟩ [.apiAuthMw, .deleteUserMw]
          st initCtx).1.users = st.users.eraseP (fun w => w._id == u._id) := by
        simp [runChain, runHandler, h]
      rw [hr]
      exact mem_eraseP_of_pred_false _ st.users v (by simpa using hne) hv

/-- C10 witness: with two different :id values, both requests delete the
token holder (user 1), not the named account, and answer 200. -/
theorem c10_delete_user_ignores_param_witness :
    runChain "secret" ⟨⟨none, some "Bearer secret:1"⟩, 2, ⟨none, none, none⟩⟩
        [.apiAuthMw, .deleteUserMw]
        ⟨[⟨1, "a", "a@x.com", "pw", []⟩, ⟨2, "b", "b@x.com", "pw", []⟩], [], 3⟩
        initCtx =
      runChain "secret" ⟨⟨none, some "Bearer secret:1"⟩, 9, ⟨some "x", none, none⟩⟩
        [.apiAuthMw, .deleteUserMw]
        ⟨[⟨1, "a", "a@x.com", "pw", []⟩, ⟨2, "b", "b@x.com", "pw", []⟩], [], 3⟩
        initCtx ∧
    runChain "secret" ⟨⟨none, some "Bearer secret:1"⟩, 2, ⟨none, none, none⟩⟩
        [.apiAuthMw, .deleteUserMw]
        ⟨[⟨1, "a", "a@x.com", "pw", []⟩, ⟨2, "b", "b@x.com", "pw", []⟩], [], 3⟩
        initCtx =
      (⟨[⟨2, "b", "b@x.com", "pw", []⟩], [], 3⟩,
       .jsonMsg 200 "User deleted successfully") ∧
    (⟨2, "b", "b@x.com", "pw", []⟩ : User) ∈
      (runChain "secret" ⟨⟨none, some "Bearer secret:1"⟩, 2, ⟨none, none, none⟩⟩
        [.apiAuthMw, .deleteUserMw]
        ⟨[⟨1, "a", "a@x.com", "pw", []⟩, ⟨2, "b", "b@x.com", "pw", []⟩], [], 3⟩
        initCtx).1.users := by
  have h := c10_delete_user_ignores_param
    ⟨[⟨1, "a", "a@x.com", "pw", []⟩, ⟨2, "b", "b@x.com", "pw", []⟩], [], 3⟩
    "secret" ⟨none, some "Bearer secret:1"⟩ 2 9 ⟨none, none, none⟩
    ⟨some "x", none, none⟩
  have hok := h.2.2 ⟨1, "a", "a@x.com", "pw", []⟩ "secret:1" (by decide)
  exact ⟨h.2.1, hok.1, hok.2 ⟨2, "b", "b@x.com", "pw", []⟩ (by decide) (by decide)⟩

theorem apiAuth_fail_uniform (db : List User) (secret : String)
    (r : AuthRequest) (s : Nat) (m : String)
    (h : apiAuth db secret r = .fail s m) : s = 401 ∧ m = "Not authorized" := by
  unfold apiAuth at h
  cases hh : r.authHeader with
  | none =>
    simp only [hh] at h
    injection h with h1 h2
    exact ⟨h1.symm, h2.symm⟩
  | some x =>
    simp only [hh] at h
    cases hv : jwtVerify (bearerToken x) secret with
    | none =>
      simp only [hv] at h
      injection h with h1 h2
      exact ⟨h1.symm, h2.symm⟩
    | some i =>
      simp only [hv] at h
      cases hu : findOneUser db i with
      | none =>
        simp only [hu] at h
        injection h with h1 h2
        exact ⟨h1.symm, h2.symm⟩
      | some u =>
        simp only [hu] at h
        exact AuthOutcome.noConfusion h

/-- C8: on the JSON API pipelines as wired, a successful create answers
201 with the created fruit, a successful delete answers 200 with the
confirmation message, a validation failure on create answers 400 with the
validation message, and an authentication failure answers 401 with
"Not authorized". -/
theorem c8_api_status_codes :
    ∀ (st : AppState) (secret : String) (req : WebReq),
      (∀ u tok f, apiAuth st.users secret req.authReq = .ok u tok →
        fruitCreateDoc st.nextId (coerceFruitBody req.body) = .ok f →
        (runChain secret req [.apiAuthMw, .dataCreate, .apiCreate] st initCtx).2 =
          .jsonFruit 201 (some f)) ∧
      (∀ u tok e, apiAuth st.users secret req.authReq = .ok u tok →
        fruitCreateDoc st.nextId (coerceFruitBody req.body) = .error e →
        (runChain secret req [.apiAuthMw, .dataCreate, .apiCreate] st initCtx).2 =
          .jsonMsg 400 e) ∧
      (∀ s m, apiAuth st.users secret req.authReq = .fail s m →
        s = 401 ∧ m = "Not authorized" ∧
        (runChain secret req [.apiAuthMw, .dataCreate, .apiCreate] st initCtx).2 =
          .send 401 "Not authorized" ∧
        (runChain secret req [.apiAuthMw, .dataDestroy, .apiDestroy] st initCtx).2 =
          .send 401 "Not authorized") ∧
      (∀ u tok, apiAuth st.users secret req.authReq = .ok u tok →
        (runChain secret req [.apiAuthMw, .dataDestroy, .apiDestroy] st initCtx).2 =
          .jsonMsg 200 "Fruit successfully deleted") := by
  intro st secret req
  refine ⟨?_, ?_, ?_, ?_⟩
  · intro u tok f hauth hdoc
    simp [runChain, runHandler, hauth, hdoc]
  · intro u tok e hauth hdoc
    simp [runChain, runHandler, hauth, hdoc]
  · intro s m hauth
    obtain ⟨hs, hm⟩ := apiAuth_fail_uniform st.users secret req.authReq s m hauth
    subst hs
    subst hm
    exact ⟨rfl, rfl, by simp [runChain, runHandler, hauth],
      by simp [runChain, runHandler, hauth]⟩
  · intro u tok hauth
    simp [runChain, runHandler, hauth]

/-- C8 witness: concrete requests exercising the 201, 400, 200 and 401
answers of the API pipelines. -/
theorem c8_api_status_codes_witness :
    (runChain "secret"
        ⟨⟨none, some "Bearer secret:1"⟩, 0, ⟨some "apple", some "red", none⟩⟩
        [.apiAuthMw, .dataCreate, .apiCreate]
        ⟨[⟨1, "a", "a@x.com", "pw", []⟩], [], 5⟩ initCtx).2 =
      .jsonFruit 201 (some ⟨5, "apple", "red", false⟩) ∧
    (runChain "secret"
        ⟨⟨none, some "Bearer secret:1"⟩, 0, ⟨some "apple", none, none⟩⟩
        [.apiAuthMw, .dataCreate, .apiCreate]
        ⟨[⟨1, "a", "a@x.com", "pw", []⟩], [], 5⟩ initCtx).2 =
      .jsonMsg 400 "Fruit validation failed" ∧
    (runChain "secret"
        ⟨⟨none, some "Bearer secret:1"⟩, 7, ⟨none, none, none⟩⟩
        [.apiAuthMw, .dataDestroy, .apiDestroy]
        ⟨[⟨1, "a", "a@x.com", "pw", []⟩], [], 5⟩ initCtx).2 =
      .jsonMsg 200 "Fruit successfully deleted" ∧
    (runChain "secret" ⟨⟨none, none⟩, 0, ⟨some "apple", some "red", none⟩⟩
        [.apiAuthMw, .dataCreate, .apiCreate]
        ⟨[⟨1, "a", "a@x.com", "pw", []⟩], [], 5⟩ initCtx).2 =
      .send 401 "Not authorized" := by
  refine ⟨?_, ?_, ?_, ?_⟩
  · exact (c8_api_status_codes ⟨[⟨1, "a", "a@x.com", "pw", []⟩], [], 5⟩ "secret"
      ⟨⟨none, some "Bearer secret:1"⟩, 0, ⟨some "apple", some "red", none⟩⟩).1
      ⟨1, "a", "a@x.com", "pw", []⟩ "secret:1" ⟨5, "apple", "red", false⟩
      (by decide) rfl
  · exact (c8_api_status_codes ⟨[⟨1, "a", "a@x.com", "pw", []⟩], [], 5⟩ "secret"
      ⟨⟨none, some "Bearer secret:1"⟩, 0, ⟨some "apple", none, none⟩⟩).2.1
      ⟨1, "a", "a@x.com", "pw", []⟩ "secret:1" "Fruit validation failed"
      (by decide) rfl
  · exact (c8_api_status_codes ⟨[⟨1, "a", "a@x.com", "pw", []⟩], [], 5⟩ "secret"
      ⟨⟨none, some "Bearer secret:1"⟩, 7, ⟨none, none, none⟩⟩).2.2.2
      ⟨1, "a", "a@x.com", "pw", []⟩ "secret:1" (by decide)
  · exact ((c8_api_status_codes ⟨[⟨1, "a", "a@x.com", "pw", []⟩], [], 5⟩ "secret"
      ⟨⟨none, none⟩, 0, ⟨some "apple", some "red", none⟩⟩).2.2.1
      401 "Not authorized" (by decide)).2.2.1

end FruitsApp
